import Mathlib

/-!
Shallow embedding of `src/server.py` (`websocket_endpoint` and the module-level
`STATE` dict) of the web-rtc signaling relay.

Modelling choices, each tied to a line of the source:
* A connection is identified by its Python object identity `id(websocket)`.
  We model a connection as a `Nat` and Python's `id` applied to an optional
  connection reference by `pyId`: `id(None)` is a fixed sentinel (0) distinct
  from `id(ws)` for every live connection `ws` (modelled as `ws + 1`).
* `STATE = {"broadcaster": None, "viewers": set()}` (lines 14-17) becomes
  `ServerState` with an `Option Conn` broadcaster and a duplicate-free list of
  viewers standing for the Python set (`set.add` is guarded by membership,
  `set.discard` is `List.erase`); list order stands for the unspecified set
  iteration order.
* `await x.send_text(...)` can raise when the recipient's transport is down.
  The oracle `fails : Conn → Bool` says which recipients' sends raise; a raised
  send is `PyExn.sendError`. In the source no send is wrapped in try/except.
  `websocket.receive_text()` raising `WebSocketDisconnect` is `Event.recvDisconnect`;
  `json.loads` raising `JSONDecodeError` on a malformed frame is
  `Event.recvMalformed` (`PyExn.jsonError`). Only `WebSocketDisconnect` is
  caught (line 98); every other exception propagates out of the handler.
* `message.get("type")`, `.get("target_id")`, `.get("target")` return `none`
  when absent; `message["sdp"]` and `message["candidate"]` are unconditional
  indexing, so those fields are plain values in `ClientMsg`.
-/

namespace Server

/-- A live websocket connection, keyed by identity. -/
abbrev Conn := Nat

/-- Python `id` applied to the `STATE["broadcaster"]` reference: `id(None)` is a
sentinel value distinct from the identity of every live connection. -/
def pyId : Option Conn → Nat
  | none => 0
  | some c => c + 1

/-- The module-level `STATE` dict (lines 14-17). -/
structure ServerState where
  broadcaster : Option Conn
  viewers : List Conn
deriving DecidableEq

/-- Messages the server builds with `json.dumps` and sends (lines 48-51, 60-68,
75, 82, 88, 94, 103, 108-111). -/
inductive OutMsg where
  | newViewer (viewerId : Nat)
  | errorMsg (message : String)
  | offer (sdp : String) (broadcasterId : Nat)
  | answer (sdp : String) (viewerId : Nat)
  | candidateToB (candidate : String) (viewerId : Nat)
  | candidateToV (candidate : String)
  | broadcasterDisconnected
  | viewerDisconnected (viewerId : Nat)
deriving DecidableEq

/-- One successfully delivered `send_text` call: recipient and payload. -/
structure Sent where
  recipient : Conn
  payload : OutMsg
deriving DecidableEq

/-- Python exceptions relevant to the handler: `WebSocketDisconnect` raised by
`receive_text`, `json.JSONDecodeError` raised by `json.loads`, and the error a
`send_text` to a dead recipient raises (not a `WebSocketDisconnect`, hence not
caught by line 98). -/
inductive PyExn where
  | wsDisconnect
  | jsonError
  | sendError (dst : Conn)
deriving DecidableEq

/-- The parsed inbound message, discriminated on `message.get("type")`
(lines 35, 37, 53, 70, 79, 85); `other` covers unknown and absent types. -/
inductive ClientMsg where
  | registerBroadcaster
  | registerViewer
  | offer (targetId : Option Nat) (sdp : String)
  | answer (sdp : String)
  | candidate (target : Option String) (targetId : Option Nat) (candidate : String)
  | other
deriving DecidableEq

/-- The value of the handler-local `client_type` variable (lines 29, 43, 55). -/
inductive Role where
  | broadcaster
  | viewer
deriving DecidableEq

/-- Result of executing one block of straight-line handler code: the `STATE`
afterwards, the sends that were delivered before any exception, and the
exception if one was raised. -/
structure StepOut where
  state : ServerState
  sent : List Sent
  exn : Option PyExn
deriving DecidableEq

/-- `STATE["viewers"].add(websocket)` (line 54): Python set add, a no-op when
the connection is already present. -/
def addViewer (ws : Conn) (vs : List Conn) : List Conn :=
  if ws ∈ vs then vs else vs ++ [ws]

/-- One `send_text` call: delivered when the recipient is up, otherwise it
raises and nothing is recorded as sent. -/
def send1 (fails : Conn → Bool) (r : Conn) (m : OutMsg) : List Sent × Option PyExn :=
  if fails r then ([], some (.sendError r)) else ([⟨r, m⟩], none)

/-- A `for ... await send_text` loop over a list of connections (lines 47-51 and
102-103): each element `v` produces one send to `dest v` with payload `mk v`;
the first raising send aborts the rest of the loop. -/
def fanout (fails : Conn → Bool) (dest : Conn → Conn) (mk : Conn → OutMsg) :
    List Conn → List Sent × Option PyExn
  | [] => ([], none)
  | v :: vs =>
    if fails (dest v) then ([], some (.sendError (dest v)))
    else
      let r := fanout fails dest mk vs
      (⟨dest v, mk v⟩ :: r.1, r.2)

/-- The body of the `while True` loop for one parsed message (lines 37-96):
returns the new `client_type` together with the state, deliveries and possible
exception. State mutations happen in source order, before the sends that
follow them. -/
def processMsg (fails : Conn → Bool) (ws : Conn) (ct : Option Role)
    (s : ServerState) (m : ClientMsg) : Option Role × StepOut :=
  match m with
  | .registerBroadcaster =>
    -- lines 38-40 only log a warning when replacing a different broadcaster
    let s2 : ServerState := { s with broadcaster := some ws }
    let r := fanout fails (fun _ => ws) (fun v => .newViewer (pyId (some v))) s2.viewers
    (some .broadcaster, ⟨s2, r.1, r.2⟩)
  | .registerViewer =>
    let s2 : ServerState := { s with viewers := addViewer ws s.viewers }
    match s2.broadcaster with
    | some b =>
      let r := send1 fails b (.newViewer (pyId (some ws)))
      (some .viewer, ⟨s2, r.1, r.2⟩)
    | none =>
      let r := send1 fails ws (.errorMsg "Broadcaster is not online")
      (some .viewer, ⟨s2, r.1, r.2⟩)
  | .offer targetId sdp =>
    -- lines 70-77: linear scan, first identity match wins, then break
    match s.viewers.find? (fun v => targetId == some (pyId (some v))) with
    | some v =>
      let r := send1 fails v (.offer sdp (pyId s.broadcaster))
      (ct, ⟨s, r.1, r.2⟩)
    | none => (ct, ⟨s, [], none⟩)
  | .answer sdp =>
    match s.broadcaster with
    | some b =>
      let r := send1 fails b (.answer sdp (pyId (some ws)))
      (ct, ⟨s, r.1, r.2⟩)
    | none => (ct, ⟨s, [], none⟩)
  | .candidate target targetId candidate =>
    if target == some "broadcaster" then
      match s.broadcaster with
      | some b =>
        let r := send1 fails b (.candidateToB candidate (pyId (some ws)))
        (ct, ⟨s, r.1, r.2⟩)
      | none => (ct, ⟨s, [], none⟩)
    else if target == some "viewer" then
      match s.viewers.find? (fun v => targetId == some (pyId (some v))) with
      | some v =>
        let r := send1 fails v (.candidateToV candidate)
        (ct, ⟨s, r.1, r.2⟩)
      | none => (ct, ⟨s, [], none⟩)
    else (ct, ⟨s, [], none⟩)
  | .other => (ct, ⟨s, [], none⟩)

/-- The `except WebSocketDisconnect` block (lines 98-111), dispatching on the
last value of `client_type`. Line 100 assigns `STATE["broadcaster"] = None`
unconditionally before the notification fan-out. -/
def cleanup (fails : Conn → Bool) (ws : Conn) (ct : Option Role)
    (s : ServerState) : StepOut :=
  match ct with
  | some .broadcaster =>
    let s2 : ServerState := { s with broadcaster := none }
    let r := fanout fails (fun v => v) (fun _ => .broadcasterDisconnected) s2.viewers
    ⟨s2, r.1, r.2⟩
  | some .viewer =>
    let s2 : ServerState := { s with viewers := s.viewers.erase ws }
    match s2.broadcaster with
    | some b =>
      let r := send1 fails b (.viewerDisconnected (pyId (some ws)))
      ⟨s2, r.1, r.2⟩
    | none => ⟨s2, [], none⟩
  | none => ⟨s, [], none⟩

/-- What one iteration of `await websocket.receive_text()` plus `json.loads`
yields: a disconnect exception, a frame that fails to parse, or a parsed
message. -/
inductive Event where
  | recvDisconnect
  | recvMalformed
  | recvMsg (m : ClientMsg)
deriving DecidableEq

/-- How the handler coroutine ended: still inside `while True` (trace
exhausted), returned normally after the except block, or terminated by a
propagating exception; the `Bool` says whether the cleanup block ran before
the crash. -/
inductive HandlerResult where
  | running
  | cleanExit
  | crashed (e : PyExn) (cleanupRan : Bool)
deriving DecidableEq

/-- Observable outcome of one handler run: final `STATE`, final `client_type`,
all deliveries in order, and how the coroutine ended. -/
structure RunOut where
  state : ServerState
  clientType : Option Role
  sent : List Sent
  result : HandlerResult
deriving DecidableEq

/-- The `try`/`while True`/`except WebSocketDisconnect` skeleton of
`websocket_endpoint` (lines 31-111), driven by a trace of receive events.
A `WebSocketDisconnect` from the receive is the only exception the except
clause catches; a parse error or a send error propagates immediately with no
cleanup. An exception raised inside the cleanup block itself also propagates
(the except block has no inner handler). -/
def runAux (fails : Conn → Bool) (ws : Conn) :
    List Event → ServerState → Option Role → RunOut
  | [], s, ct => ⟨s, ct, [], .running⟩
  | .recvDisconnect :: _, s, ct =>
    let o := cleanup fails ws ct s
    ⟨o.state, ct, o.sent,
      match o.exn with
      | none => .cleanExit
      | some e => .crashed e true⟩
  | .recvMalformed :: _, s, ct => ⟨s, ct, [], .crashed .jsonError false⟩
  | .recvMsg m :: rest, s, ct =>
    let p := processMsg fails ws ct s m
    match p.2.exn with
    | some e => ⟨p.2.state, p.1, p.2.sent, .crashed e false⟩
    | none =>
      let r := runAux fails ws rest p.2.state p.1
      ⟨r.state, r.clientType, p.2.sent ++ r.sent, r.result⟩

/-- A full run of `websocket_endpoint` for one connection: `client_type = None`
initially (line 29). -/
def runHandler (fails : Conn → Bool) (ws : Conn) (events : List Event)
    (s : ServerState) : RunOut :=
  runAux fails ws events s none

/-- A fan-out whose sends all succeed delivers one message per list element,
in order, and raises nothing. -/
theorem fanout_all_ok (fails : Conn → Bool) (dest : Conn → Conn) (mk : Conn → OutMsg)
    (l : List Conn) (h : ∀ v ∈ l, fails (dest v) = false) :
    fanout fails dest mk l = (l.map (fun v => ⟨dest v, mk v⟩), none) := by
  induction l with
  | nil => rfl
  | cons v vs ih =>
    have hv : fails (dest v) = false := h v (by simp)
    simp [fanout, hv, ih (fun u hu => h u (by simp [hu]))]

/-- Every delivery of a fan-out aimed at a fixed recipient goes to that
recipient. -/
theorem fanout_recipient (fails : Conn → Bool) (c : Conn) (mk : Conn → OutMsg) :
    ∀ l : List Conn, ∀ m ∈ (fanout fails (fun _ => c) mk l).1, m.recipient = c := by
  intro l
  induction l with
  | nil => intro m hm; simp [fanout] at hm
  | cons v vs ih =>
    intro m hm
    by_cases hf : fails c
    · simp [fanout, hf] at hm
    · simp [fanout, hf] at hm
      rcases hm with h1 | h2
      · simp [h1]
      · exact ih m h2

/-- A fan-out whose list splits as a prefix of live recipients, one dead
recipient, then anything: the prefix is delivered, the raise happens at the
dead recipient, and everything after it is skipped. -/
theorem fanout_fail_at (fails : Conn → Bool) (mk : Conn → OutMsg)
    (vs1 vs2 : List Conn) (v : Conn) (h1 : ∀ u ∈ vs1, fails u = false)
    (h2 : fails v = true) :
    fanout fails (fun x => x) mk (vs1 ++ v :: vs2)
      = (vs1.map (fun u => ⟨u, mk u⟩), some (.sendError v)) := by
  induction vs1 with
  | nil => simp [fanout, h2]
  | cons u us ih =>
    have hu : fails u = false := h1 u (by simp)
    simp [fanout, hu, ih (fun w hw => h1 w (by simp [hw]))]

/-- `List.find?` returns the unique element satisfying the predicate when one
is present in the list. -/
theorem find_eq_of_unique {α : Type} (p : α → Bool) (a : α) :
    ∀ l : List α, a ∈ l → p a = true → (∀ b, p b = true → b = a) →
      l.find? p = some a := by
  intro l
  induction l with
  | nil => intro h; simp at h
  | cons x xs ih =>
    intro hmem hpa huniq
    by_cases hx : p x = true
    · have hxa := huniq x hx
      subst hxa
      simp [List.find?_cons_of_pos _ hx]
    · rw [List.find?_cons_of_neg _ (by simpa using hx)]
      refine ih ?_ hpa huniq
      rcases List.mem_cons.mp hmem with h | h
      · exact absurd (h ▸ hpa) hx
      · exact h

/-- C1: the claim asserts the disconnect cleanup of a superseded broadcaster
leaves the broadcaster slot unchanged when a different connection occupies it.
False: connection 0 (role broadcaster, superseded by connection 1 which holds
the slot) disconnects and the cleanup sets the slot to empty, not `some 1`. -/
theorem C1_counterexample :
    (0 : Conn) ≠ 1
    ∧ (cleanup (fun _ => false) 0 (some Role.broadcaster) ⟨some 1, []⟩).state.broadcaster
        ≠ some 1 := by
  constructor <;> decide

/-- C1 amended: when a connection whose last-assigned role is broadcaster
terminates, the cleanup clears the broadcaster slot unconditionally (line 100
of `server.py` assigns `None` with no equality guard), even when a different
connection has since taken the slot. -/
theorem C1_amended_cleanup_clears_unconditionally (fails : Conn → Bool) (ws : Conn)
    (s : ServerState) :
    (cleanup fails ws (some Role.broadcaster) s).state.broadcaster = none := rfl

/-- C2: the claim asserts a malformed inbound frame is logged, discarded, and
the receive loop continues with the connection open. False: after a malformed
frame the handler crashes (`json.loads` raises and nothing catches it) and a
well-formed `register_viewer` frame that follows is never processed. -/
theorem C2_counterexample :
    runHandler (fun _ => false) 0
        [Event.recvMalformed, Event.recvMsg .registerViewer] ⟨none, []⟩
      = ⟨⟨none, []⟩, none, [], .crashed .jsonError false⟩ := rfl

/-- C2 amended: a malformed inbound frame raises an uncaught JSON parse error
that terminates the handler immediately: no send, no state change, no cleanup,
and no later frame of the trace is processed. -/
theorem C2_amended_malformed_crashes_handler (fails : Conn → Bool) (ws : Conn)
    (rest : List Event) (s : ServerState) (ct : Option Role) :
    runAux fails ws (Event.recvMalformed :: rest) s ct
      = ⟨s, ct, [], .crashed .jsonError false⟩ := rfl

/-- C3: the claim asserts every cause of loop exit runs the cleanup exactly
once without it throwing. False: connection 0 registers as viewer (with
broadcaster 1 present) and then hits a malformed frame; the loop exits with an
uncaught parse error, the cleanup never runs, and connection 0 is left dangling
in the viewers set. -/
theorem C3_counterexample :
    (runHandler (fun _ => false) 0
        [Event.recvMsg .registerViewer, Event.recvMalformed] ⟨some 1, []⟩).result
      = .crashed .jsonError false
    ∧ (runHandler (fun _ => false) 0
        [Event.recvMsg .registerViewer, Event.recvMalformed] ⟨some 1, []⟩).state.viewers
      = [0] := by
  constructor <;> decide

/-- C3 amended: the cleanup runs (once) exactly when the loop exit is the
receive-side `WebSocketDisconnect`; a cleanup-internal send failure then
propagates out of the handler. Exits caused by a parse error or by a send
failure inside the loop body skip the cleanup entirely. -/
theorem C3_amended_cleanup_only_on_disconnect (fails : Conn → Bool) (ws : Conn)
    (rest : List Event) (s : ServerState) (ct : Option Role) (m : ClientMsg)
    (e : PyExn) :
    (runAux fails ws (Event.recvDisconnect :: rest) s ct
      = ⟨(cleanup fails ws ct s).state, ct, (cleanup fails ws ct s).sent,
          match (cleanup fails ws ct s).exn with
          | none => .cleanExit
          | some e2 => .crashed e2 true⟩)
    ∧ (runAux fails ws (Event.recvMalformed :: rest) s ct
        = ⟨s, ct, [], .crashed .jsonError false⟩)
    ∧ ((processMsg fails ws ct s m).2.exn = some e →
        runAux fails ws (Event.recvMsg m :: rest) s ct
          = ⟨(processMsg fails ws ct s m).2.state, (processMsg fails ws ct s m).1,
              (processMsg fails ws ct s m).2.sent, .crashed e false⟩) := by
  refine ⟨rfl, rfl, fun h => ?_⟩
  simp [runAux, h]

/-- Witness for C3: with broadcaster 1 unreachable, connection 0's
`register_viewer` notification raises at the send; the handler crashes with
that send error and without running the cleanup. -/
theorem C3_witness :
    (processMsg (fun c => c == 1) 0 none ⟨some 1, []⟩ .registerViewer).2.exn
      = some (.sendError 1)
    ∧ runAux (fun c => c == 1) 0 [Event.recvMsg .registerViewer] ⟨some 1, []⟩ none
      = ⟨⟨some 1, [0]⟩, some Role.viewer, [], .crashed (.sendError 1) false⟩ := by
  refine ⟨rfl, ?_⟩
  exact (C3_amended_cleanup_only_on_disconnect (fun c => c == 1) 0 [] ⟨some 1, []⟩
    none .registerViewer (.sendError 1)).2.2 rfl

/-- C4: the claim asserts a failed send is caught at the send site, aborting
nothing and crashing nothing. False: broadcaster 0 disconnects with viewers
[2, 1, 3] and viewer 1 unreachable; viewer 2 is served, the send to 1 raises,
viewer 3 never receives its notification, and the exception propagates. -/
theorem C4_counterexample :
    (cleanup (fun c => c == 1) 0 (some Role.broadcaster) ⟨some 0, [2, 1, 3]⟩).sent
      = [⟨2, .broadcasterDisconnected⟩]
    ∧ (cleanup (fun c => c == 1) 0 (some Role.broadcaster) ⟨some 0, [2, 1, 3]⟩).exn
      = some (.sendError 1)
    ∧ ∀ m ∈ (cleanup (fun c => c == 1) 0 (some Role.broadcaster)
        ⟨some 0, [2, 1, 3]⟩).sent, m.recipient ≠ 3 := by
  refine ⟨rfl, rfl, by decide⟩

/-- C4 amended: a send failure is not caught at the send site: in the
broadcaster-disconnect fan-out the first unreachable viewer aborts delivery to
every later viewer and the exception escapes the cleanup; the Registry
mutation, made before the sends, stands regardless. -/
theorem C4_amended_send_failure_aborts_fanout (fails : Conn → Bool) (ws : Conn)
    (b : Option Conn) (vs1 vs2 : List Conn) (v : Conn)
    (h1 : ∀ u ∈ vs1, fails u = false) (h2 : fails v = true) :
    cleanup fails ws (some Role.broadcaster) ⟨b, vs1 ++ v :: vs2⟩
      = ⟨⟨none, vs1 ++ v :: vs2⟩,
          vs1.map (fun u => ⟨u, .broadcasterDisconnected⟩), some (.sendError v)⟩ := by
  simp [cleanup, fanout_fail_at fails _ vs1 vs2 v h1 h2]

/-- Witness for C4: the amended fan-out behavior at viewers [2] ++ 1 :: [3]
with viewer 1 unreachable. -/
theorem C4_witness :
    (∀ u ∈ [(2 : Conn)], (fun c : Conn => c == 1) u = false)
    ∧ (fun c : Conn => c == 1) 1 = true
    ∧ cleanup (fun c => c == 1) 0 (some Role.broadcaster) ⟨none, [2] ++ 1 :: [3]⟩
        = ⟨⟨none, [2] ++ 1 :: [3]⟩, [⟨2, .broadcasterDisconnected⟩],
            some (.sendError 1)⟩ := by
  refine ⟨by decide, by decide, ?_⟩
  exact C4_amended_send_failure_aborts_fanout (fun c => c == 1) 0 none [2] [3] 1
    (by decide) (by decide)

/-- C5: the claim asserts no reachable Registry state has one connection as
both broadcaster and viewer. False: connection 0 sending `register_viewer`
then `register_broadcaster` from the empty state ends with itself in the
broadcaster slot and still in the viewers set. -/
theorem C5_counterexample :
    (runHandler (fun _ => false) 0
        [Event.recvMsg .registerViewer, Event.recvMsg .registerBroadcaster]
        ⟨none, []⟩).state.broadcaster = some 0
    ∧ 0 ∈ (runHandler (fun _ => false) 0
        [Event.recvMsg .registerViewer, Event.recvMsg .registerBroadcaster]
        ⟨none, []⟩).state.viewers := by
  constructor <;> decide

/-- C5 amended: the code does not maintain the exclusivity invariant:
`register_broadcaster` never removes the sender from the viewers set and
`register_viewer` never compares the sender against the broadcaster slot, so a
connection registering in both orders holds both positions simultaneously. -/
theorem C5_amended_registration_preserves_other_slot (fails : Conn → Bool) (ws : Conn)
    (ct : Option Role) (s : ServerState) :
    (processMsg fails ws ct s .registerBroadcaster).2.state.viewers = s.viewers
    ∧ (processMsg fails ws ct s .registerViewer).2.state.broadcaster = s.broadcaster := by
  obtain ⟨b, vs⟩ := s
  cases b <;> exact ⟨rfl, rfl⟩

/-- C6: the claim asserts a connection's role is fixed by its first successful
registration. False: connection 0 registers as broadcaster and then sends
`register_viewer`; its `client_type` afterwards is viewer, not the first-won
broadcaster role. -/
theorem C6_counterexample :
    (runHandler (fun _ => false) 0
        [Event.recvMsg .registerBroadcaster, Event.recvMsg .registerViewer]
        ⟨none, []⟩).clientType = some Role.viewer
    ∧ some Role.viewer ≠ some Role.broadcaster := by
  constructor <;> decide

/-- C6 amended: `client_type` is reassigned on every registration message:
after processing `register_broadcaster` it is broadcaster and after processing
`register_viewer` it is viewer, whatever role the connection held before. -/
theorem C6_amended_role_reassigned (fails : Conn → Bool) (ws : Conn) (ct : Option Role)
    (s : ServerState) :
    (processMsg fails ws ct s .registerBroadcaster).1 = some Role.broadcaster
    ∧ (processMsg fails ws ct s .registerViewer).1 = some Role.viewer := by
  obtain ⟨b, vs⟩ := s
  cases b <;> exact ⟨rfl, rfl⟩

/-- C7: `register_viewer` produces exactly one `new_viewer` message to the
broadcaster when one is registered and otherwise exactly one error reply to
the registering viewer; and `register_broadcaster` sends only to the
registering connection itself, so viewers that previously received the error
get nothing when a broadcaster later registers. -/
theorem C7_register_viewer_reply (fails : Conn → Bool) (ws : Conn) (ct : Option Role)
    (s : ServerState) :
    (s.broadcaster = none → fails ws = false →
      (processMsg fails ws ct s .registerViewer).2
        = ⟨⟨none, addViewer ws s.viewers⟩,
            [⟨ws, .errorMsg "Broadcaster is not online"⟩], none⟩)
    ∧ (∀ b, s.broadcaster = some b → fails b = false →
      (processMsg fails ws ct s .registerViewer).2
        = ⟨⟨some b, addViewer ws s.viewers⟩,
            [⟨b, .newViewer (pyId (some ws))⟩], none⟩)
    ∧ (∀ m ∈ (processMsg fails ws ct s .registerBroadcaster).2.sent,
        m.recipient = ws) := by
  obtain ⟨b0, vs⟩ := s
  refine ⟨?_, ?_, ?_⟩
  · intro h hf
    cases h
    simp [processMsg, send1, hf]
  · intro b hb hf
    cases hb
    simp [processMsg, send1, hf]
  · intro m hm
    exact fanout_recipient fails ws _ _ m hm

/-- Witness for C7: from the empty state, connection 0 registering as a viewer
receives exactly the error reply. -/
theorem C7_witness :
    ((⟨none, []⟩ : ServerState).broadcaster = none)
    ∧ ((fun _ : Conn => false) 0 = false)
    ∧ (processMsg (fun _ => false) 0 none ⟨none, []⟩ .registerViewer).2
        = ⟨⟨none, [0]⟩, [⟨0, .errorMsg "Broadcaster is not online"⟩], none⟩ := by
  refine ⟨rfl, rfl, ?_⟩
  exact (C7_register_viewer_reply (fun _ => false) 0 none ⟨none, []⟩).1 rfl rfl

/-- C8: `register_broadcaster` replaces whatever the broadcaster slot held
with the sender, sends the sender one `new_viewer` message per current viewer
and nothing else, and the superseded broadcaster (when different from the
sender) receives no message at all. -/
theorem C8_register_broadcaster_behavior (fails : Conn → Bool) (ws : Conn)
    (ct : Option Role) (s : ServerState) (h : fails ws = false) :
    (processMsg fails ws ct s .registerBroadcaster
      = (some Role.broadcaster,
          ⟨⟨some ws, s.viewers⟩,
            s.viewers.map (fun v => ⟨ws, .newViewer (pyId (some v))⟩), none⟩))
    ∧ (∀ b0, s.broadcaster = some b0 → b0 ≠ ws →
        ∀ m ∈ (processMsg fails ws ct s .registerBroadcaster).2.sent,
          m.recipient ≠ b0) := by
  have hf := fanout_all_ok fails (fun _ => ws) (fun v => .newViewer (pyId (some v)))
    s.viewers (fun v _ => h)
  refine ⟨by simp [processMsg, hf], ?_⟩
  intro b0 _ hne m hm
  have hr := fanout_recipient fails ws _ _ m hm
  rw [hr]
  exact hne.symm

/-- Witness for C8: connection 0 supersedes broadcaster 5 with viewers 1 and 2
waiting and receives exactly their two `new_viewer` identities. -/
theorem C8_witness :
    ((fun _ : Conn => false) 0 = false)
    ∧ processMsg (fun _ => false) 0 none ⟨some 5, [1, 2]⟩ .registerBroadcaster
        = (some Role.broadcaster,
            ⟨⟨some 0, [1, 2]⟩, [⟨0, .newViewer 2⟩, ⟨0, .newViewer 3⟩], none⟩) := by
  refine ⟨rfl, ?_⟩
  exact (C8_register_broadcaster_behavior (fun _ => false) 0 none ⟨some 5, [1, 2]⟩ rfl).1

/-- C9: an `offer`, and a `candidate` with target "viewer", reach exactly the
one registered viewer whose identity equals `target_id` (a singleton delivery
list: every other viewer gets nothing); with no matching viewer nothing is
sent, no exception is raised, the state is unchanged, and the handler loop
continues with the remaining trace exactly as if the message had not been
received. -/
theorem C9_targeted_forwarding (fails : Conn → Bool) (ws : Conn) (ct : Option Role)
    (s : ServerState) (tid : Option Nat) (sdp cand : String) :
    (∀ v0 ∈ s.viewers, tid = some (pyId (some v0)) → fails v0 = false →
      (processMsg fails ws ct s (.offer tid sdp)).2
          = ⟨s, [⟨v0, .offer sdp (pyId s.broadcaster)⟩], none⟩
      ∧ (processMsg fails ws ct s (.candidate (some "viewer") tid cand)).2
          = ⟨s, [⟨v0, .candidateToV cand⟩], none⟩)
    ∧ ((∀ v ∈ s.viewers, tid ≠ some (pyId (some v))) →
      (processMsg fails ws ct s (.offer tid sdp)).2 = ⟨s, [], none⟩
      ∧ (processMsg fails ws ct s (.candidate (some "viewer") tid cand)).2
          = ⟨s, [], none⟩
      ∧ ∀ rest, runAux fails ws (Event.recvMsg (.offer tid sdp) :: rest) s ct
          = runAux fails ws rest s ct) := by
  refine ⟨?_, ?_⟩
  · intro v0 hmem htid hfail
    have hpa : (tid == some (pyId (some v0))) = true := by simp [htid]
    have huniq : ∀ b, (tid == some (pyId (some b))) = true → b = v0 := by
      intro b hb
      rw [htid] at hb
      have h2 := eq_of_beq hb
      simp [pyId] at h2
      exact h2.symm
    have hfind := find_eq_of_unique (fun v => tid == some (pyId (some v))) v0
      s.viewers hmem hpa huniq
    exact ⟨by simp [processMsg, hfind, send1, hfail],
      by simp [processMsg, hfind, send1, hfail]⟩
  · intro hnone
    have hfind : s.viewers.find? (fun v => tid == some (pyId (some v))) = none := by
      rw [List.find?_eq_none]
      intro v hv
      simpa using hnone v hv
    refine ⟨by simp [processMsg, hfind], by simp [processMsg, hfind], ?_⟩
    intro rest
    simp [runAux, processMsg, hfind]

/-- Witness for C9: with viewers 3 and 7, an offer targeted at identity 8
reaches only viewer 7; a candidate targeted at the unknown identity 99 goes
nowhere and raises nothing. -/
theorem C9_witness :
    (7 : Conn) ∈ [(3 : Conn), 7]
    ∧ (processMsg (fun _ => false) 0 none ⟨some 9, [3, 7]⟩ (.offer (some 8) "s")).2
        = ⟨⟨some 9, [3, 7]⟩, [⟨7, .offer "s" 10⟩], none⟩
    ∧ (processMsg (fun _ => false) 0 none ⟨some 9, [3, 7]⟩
          (.candidate (some "viewer") (some 99) "c")).2
        = ⟨⟨some 9, [3, 7]⟩, [], none⟩ := by
  refine ⟨by decide, ?_, ?_⟩
  · exact ((C9_targeted_forwarding (fun _ => false) 0 none ⟨some 9, [3, 7]⟩
      (some 8) "s" "c").1 7 (by decide) rfl rfl).1
  · exact ((C9_targeted_forwarding (fun _ => false) 0 none ⟨some 9, [3, 7]⟩
      (some 99) "s" "c").2 (by decide)).2.1

/-- C10: an offer whose `target_id` matches a registered viewer is forwarded
even with no broadcaster registered; its `broadcaster_id` field is the
identity of the empty-slot sentinel (`id(None)`), which differs from the
identity of every live connection. -/
theorem C10_offer_null_broadcaster (fails : Conn → Bool) (ws : Conn) (ct : Option Role)
    (vs : List Conn) (tid : Option Nat) (sdp : String) (v0 : Conn)
    (hmem : v0 ∈ vs) (htid : tid = some (pyId (some v0))) (hfail : fails v0 = false) :
    (processMsg fails ws ct ⟨none, vs⟩ (.offer tid sdp)).2
      = ⟨⟨none, vs⟩, [⟨v0, .offer sdp (pyId none)⟩], none⟩
    ∧ ∀ c : Conn, pyId none ≠ pyId (some c) := by
  have hpa : (tid == some (pyId (some v0))) = true := by simp [htid]
  have huniq : ∀ b, (tid == some (pyId (some b))) = true → b = v0 := by
    intro b hb
    rw [htid] at hb
    have h2 := eq_of_beq hb
    simp [pyId] at h2
    exact h2.symm
  have hfind : vs.find? (fun v => tid == some (pyId (some v))) = some v0 :=
    find_eq_of_unique (fun v => tid == some (pyId (some v))) v0 vs hmem hpa huniq
  refine ⟨by simp [processMsg, hfind, send1, hfail], ?_⟩
  intro c h
  simp [pyId] at h

/-- Witness for C10: with no broadcaster and viewer 4 registered, an offer
targeted at identity 5 is delivered to viewer 4 carrying broadcaster_id 0,
the sentinel identity of the empty slot. -/
theorem C10_witness :
    (4 : Conn) ∈ [(4 : Conn)]
    ∧ (processMsg (fun _ => false) 0 none ⟨none, [4]⟩ (.offer (some 5) "s")).2
        = ⟨⟨none, [4]⟩, [⟨4, .offer "s" 0⟩], none⟩ := by
  refine ⟨by decide, ?_⟩
  exact (C10_offer_null_broadcaster (fun _ => false) 0 none [4] (some 5) "s" 4
    (by decide) rfl rfl).1

end Server
